import Mathlib

/-!
Verification of the caikit runtime tracing subsystem and the NLP task
declarations.

The tracing module (`caikit.runtime.trace`) is exercised by
`tests/runtime/test_trace.py`; its data model, state machine and error
behaviour are embedded below.  The NLP task declarations are embedded
directly from `caikit/interfaces/nlp/tasks.py`.
-/

namespace Caikit

/-! ## Errors raised by the tracing subsystem -/

/-- Modelled from the spec: the error taxonomy of the trace module
(`caikit/runtime/trace.py`, absent from the source tree).  `configError`
covers invalid/missing required settings (bad protocol enum, malformed
endpoint, incomplete mTLS pair); `ioError` covers an unreadable TLS
material file. -/
inductive TraceError where
  | configError (msg : String)
  | ioError (path : String)
deriving DecidableEq, Repr

/-! ## PEM material and TLS settings -/

/-- Modelled from the spec: tagged union of inline PEM content or a
filesystem path (`PemMaterial` in the spec's data model; the trace module
source is absent from the source tree). -/
inductive PemMaterial where
  | inline (content : String)
  | path (p : String)
deriving DecidableEq, Repr

/-- Modelled from the spec: TLS settings of section `runtime.trace.tls`
(`TlsSettings` in the spec's data model; the trace module source is absent
from the source tree). -/
structure TlsSettings where
  ca : Option PemMaterial := none
  client_cert : Option PemMaterial := none
  client_key : Option PemMaterial := none
deriving DecidableEq, Repr

/-- The filesystem visible to the trace module: a map from path to file
contents, `none` when the file is unreadable. -/
def FileSystem : Type := String → Option String

/-- Modelled from the spec: the TLS material loader
(`resolve(material: PemMaterial) -> bytes`).  Inline material returns the
string's bytes directly; path material performs a scoped read and fails
with `IOError` if unreadable. -/
def resolvePem (fs : FileSystem) : PemMaterial → Except TraceError String
  | .inline s => .ok s
  | .path p =>
    match fs p with
    | some contents => .ok contents
    | none => .error (.ioError p)

/-- Resolved TLS credential bytes, consumed by the exporter factory. -/
structure ResolvedTls where
  ca : Option String := none
  client_cert : Option String := none
  client_key : Option String := none
deriving DecidableEq, Repr

/-- Resolve an optional field of the TLS settings; absence yields `none`,
not an error. -/
def resolvePemOpt (fs : FileSystem) : Option PemMaterial → Except TraceError (Option String)
  | none => .ok none
  | some m => (resolvePem fs m).map some

/-- Modelled from the spec: resolving the three fields of `TlsSettings`.
The incomplete-mTLS-pair check enforces that `client_cert` and
`client_key` are both-or-neither, failing with `ConfigError` otherwise;
each present field is then resolved independently. -/
def resolveTls (fs : FileSystem) : Option TlsSettings → Except TraceError ResolvedTls
  | none => .ok {}
  | some t =>
    if t.client_cert.isSome != t.client_key.isSome then
      .error (.configError "incomplete mTLS pair")
    else
      match resolvePemOpt fs t.ca with
      | .error e => .error e
      | .ok ca =>
        match resolvePemOpt fs t.client_cert with
        | .error e => .error e
        | .ok cert =>
          match resolvePemOpt fs t.client_key with
          | .error e => .error e
          | .ok key => .ok { ca := ca, client_cert := cert, client_key := key }

/-- The three credential tiers of the exporter factory. -/
inductive CredTier where
  | insecure
  | serverAuth
  | mutualTls
deriving DecidableEq, Repr

/-- Modelled from the spec: the exporter factory's credential selection —
insecure if no TLS material, server-auth TLS if only `ca` is present,
mutual TLS if `client_cert` and `client_key` are present. -/
def credTier (r : ResolvedTls) : CredTier :=
  if r.client_cert.isSome && r.client_key.isSome then .mutualTls
  else if r.ca.isSome then .serverAuth
  else .insecure

/-! ## Trace settings and the configuration resolver -/

/-- The transport protocol of the exporter. -/
inductive TraceProtocol where
  | http
  | grpc
deriving DecidableEq, Repr

/-- Modelled from the spec: the raw configuration mapping of section
`runtime.trace` as handed to the configuration resolver; every field may
be absent. -/
structure RawTraceConfig where
  enabled : Option Bool := none
  protocol : Option String := none
  endpoint : Option String := none
  flush_on_exit : Option Bool := none
  tls : Option TlsSettings := none
deriving DecidableEq, Repr

/-- Modelled from the spec: validated `TraceSettings` produced by the
configuration resolver. -/
structure TraceSettings where
  enabled : Bool
  protocol : TraceProtocol
  endpoint : String
  flush_on_exit : Bool
  tls : Option TlsSettings
deriving DecidableEq, Repr

/-- Parse the protocol enum; unknown values are rejected. -/
def parseProtocol : String → Option TraceProtocol
  | "http" => some .http
  | "grpc" => some .grpc
  | _ => none

/-- Modelled from the spec: the configuration resolver for section
`runtime.trace`.  Missing `enabled` defaults to `false`; unknown protocol
values fail with `ConfigError`.  Pure: a function of the raw mapping
alone, with no filesystem or state argument. -/
def resolveSettings (cfg : RawTraceConfig) : Except TraceError TraceSettings :=
  let protoStr := cfg.protocol.getD "grpc"
  match parseProtocol protoStr with
  | none => .error (.configError ("unknown protocol: " ++ protoStr))
  | some proto =>
    .ok { enabled := cfg.enabled.getD false
          protocol := proto
          endpoint := cfg.endpoint.getD "localhost:4317"
          flush_on_exit := cfg.flush_on_exit.getD true
          tls := cfg.tls }

/-- Whether an endpoint string carries an http(s) URL scheme. -/
def hasScheme (ep : String) : Bool :=
  ep.data.take 7 == "http://".data || ep.data.take 8 == "https://".data

/-- Modelled from the spec: endpoint validation.  `protocol=http`
requires a full URL including scheme; `protocol=grpc` requires a bare
`host:port` authority (no scheme). -/
def validEndpoint (proto : TraceProtocol) (ep : String) : Bool :=
  match proto with
  | .http => hasScheme ep
  | .grpc => !hasScheme ep && ep.data.contains ':'

/-! ## Spans and the exporter pipeline -/

/-- Attribute values of mixed types: strings, numbers, sequences. -/
inductive AttrValue where
  | str (s : String)
  | int (n : Int)
  | seq (vs : List String)
deriving DecidableEq, Repr

/-- A span-context argument handed to `add_link`: valid, invalid or
missing. -/
inductive SpanContextArg where
  | valid (traceId : Nat)
  | invalid
  | missing
deriving DecidableEq, Repr

/-- The observable data of a completed span. -/
structure SpanData where
  name : String
  attrs : List (String × AttrValue) := []
  events : List (String × List (String × AttrValue)) := []
  links : List SpanContextArg := []
deriving DecidableEq, Repr

/-- Modelled from the spec: a transport-specific span exporter built by
the exporter factory — its transport, target endpoint and credential
tier. -/
structure Exporter where
  protocol : TraceProtocol
  endpoint : String
  tier : CredTier
deriving DecidableEq, Repr

/-- Modelled from the spec: the process-wide tracer provider singleton
state — unconfigured, permanent no-op, or active with an exporter and
the batching processor's buffer of ended, not-yet-exported spans. -/
inductive ProviderState where
  | unconfigured
  | noOp
  | active (exporter : Exporter) (buffer : List SpanData)
deriving DecidableEq, Repr

/-- An export request received by a collector: the endpoint it was posted
to and the batch of spans it carried. -/
structure ExportRequest where
  endpoint : String
  spans : List SpanData
deriving DecidableEq, Repr

/-- The observable world of the trace module: the provider singleton,
whether the heavy tracing backend module has been imported, and the
export requests received by collectors on the network. -/
structure TraceWorld where
  provider : ProviderState := .unconfigured
  backendImported : Bool := false
  collectorRequests : List ExportRequest := []
deriving DecidableEq, Repr

/-- The world of a fresh process: nothing configured, backend not
imported, no collector traffic. -/
def freshWorld : TraceWorld := {}

/-! ## configure() -/

/-- Modelled from the spec: the exporter factory
(`build(settings) -> (Exporter, BatchProcessor)`).  This is the only
point at which the heavy tracing backend is imported/activated, recorded
in `backendImported`.  Malformed endpoints fail with `ConfigError` before
any network activity. -/
def buildExporter (s : TraceSettings) (tls : ResolvedTls) (w : TraceWorld) :
    Except TraceError Exporter × TraceWorld :=
  if validEndpoint s.protocol s.endpoint then
    (.ok { protocol := s.protocol, endpoint := s.endpoint, tier := credTier tls },
     { w with backendImported := true })
  else
    (.error (.configError ("malformed endpoint: " ++ s.endpoint)), w)

/-- Modelled from the spec: `configure()`.  Resolves settings; with
`enabled=false` installs the permanent no-op provider without touching
the tracing backend; with `enabled=true` resolves TLS material, builds
the exporter pipeline and installs an active provider.  On any failure
the provider singleton is left exactly as it was before the call. -/
def configure (fs : FileSystem) (cfg : RawTraceConfig) (w : TraceWorld) :
    Except TraceError Unit × TraceWorld :=
  match resolveSettings cfg with
  | .error e => (.error e, w)
  | .ok s =>
    if s.enabled = false then
      (.ok (), { w with provider := .noOp })
    else
      match resolveTls fs s.tls with
      | .error e => (.error e, w)
      | .ok tls =>
        match buildExporter s tls w with
        | (.error e, w') => (.error e, w')
        | (.ok ex, w') => (.ok (), { w' with provider := .active ex [] })

/-! ## get_tracer() and tracer operations -/

/-- The tracer handed to callers: the shared stateless no-op tracer, or
a real tracer delegating to the active provider. -/
inductive Tracer where
  | noOp
  | real (exporter : Exporter)
deriving DecidableEq, Repr

/-- Modelled from the spec: `get_tracer(name)`.  Never fails; before any
`configure()` call, and after configuration with tracing disabled, it
returns the no-op tracer. -/
def get_tracer (w : TraceWorld) (_name : String) : Tracer :=
  match w.provider with
  | .active ex _ => .real ex
  | _ => .noOp

/-- One operation of the Tracer/Span capability set, as exercised by
`exercise_tracer_api` in `tests/runtime/test_trace.py`: scoped span
enter/exit (`start_as_current_span`), detached span creation
(`start_span` with links), and the span mutators. -/
inductive TraceOp where
  | enterSpan (name : String)
  | exitSpan
  | start_span (name : String) (links : List SpanContextArg)
  | set_attribute (k : String) (v : AttrValue)
  | set_attributes (kvs : List (String × AttrValue))
  | add_event (name : String) (attrs : List (String × AttrValue))
  | add_link (ctx : SpanContextArg)
deriving DecidableEq, Repr

/-- Execution state while exercising a tracer: the world plus the stack
of currently open scoped spans (head = innermost). -/
structure ExecState where
  world : TraceWorld
  openSpans : List SpanData := []
deriving DecidableEq, Repr

/-- Apply a mutator to the innermost open span, if any. -/
def modifyCurrent (f : SpanData → SpanData) (st : ExecState) : ExecState :=
  match st.openSpans with
  | [] => st
  | s :: rest => { st with openSpans := f s :: rest }

/-- End the innermost open span: hand it to the active provider's
batching processor.  A mismatched exit (no open span) is discarded. -/
def endCurrent (st : ExecState) : ExecState :=
  match st.openSpans with
  | [] => st
  | s :: rest =>
    match st.world.provider with
    | .active ex buf =>
      { world := { st.world with provider := .active ex (buf ++ [s]) },
        openSpans := rest }
    | _ => { st with openSpans := rest }

/-- Modelled from the spec: run one tracer operation.  The no-op tracer
discards every operation silently; the real tracer records span data and
hands ended spans to the batching processor.  Totality of this function
is the embedding of "completes without raising". -/
def runOp (t : Tracer) (op : TraceOp) (st : ExecState) : ExecState :=
  match t with
  | .noOp => st
  | .real _ =>
    match op with
    | .enterSpan n => { st with openSpans := { name := n } :: st.openSpans }
    | .exitSpan => endCurrent st
    | .start_span _ _ => st
    | .set_attribute k v => modifyCurrent (fun s => { s with attrs := s.attrs ++ [(k, v)] }) st
    | .set_attributes kvs => modifyCurrent (fun s => { s with attrs := s.attrs ++ kvs }) st
    | .add_event n as => modifyCurrent (fun s => { s with events := s.events ++ [(n, as)] }) st
    | .add_link ctx => modifyCurrent (fun s => { s with links := s.links ++ [ctx] }) st

/-- Run a sequence of tracer operations. -/
def runOps (t : Tracer) (ops : List TraceOp) (st : ExecState) : ExecState :=
  ops.foldl (fun s op => runOp t op s) st

/-- The operation sequence of `exercise_tracer_api` in
`tests/runtime/test_trace.py`: a scoped span with mixed-type attributes,
an event with a sequence-valued attribute, two detached linked spans and
a cross-link. -/
def exerciseOps : List TraceOp :=
  [ .enterSpan "foobar",
    .set_attribute "foo" (.str "bar"),
    .set_attributes [("baz", .str "bat"), ("biz", .int 123)],
    .add_event "something" [("key", .seq ["val"])],
    .start_span "nested1" [.valid 1],
    .start_span "nested2" [.valid 1],
    .add_link (.valid 2),
    .exitSpan ]

/-- Modelled from the spec: `force_flush` on the provider.  An active
provider posts its nonempty buffer to its endpoint when the collector
there is reachable; an unreachable collector degrades to dropped spans,
never an error.  No-op and unconfigured providers do nothing. -/
def forceFlush (reachable : String → Bool) (w : TraceWorld) : TraceWorld :=
  match w.provider with
  | .active ex buf =>
    if buf.isEmpty then w
    else if reachable ex.endpoint then
      { w with provider := .active ex [],
               collectorRequests := w.collectorRequests ++ [⟨ex.endpoint, buf⟩] }
    else
      { w with provider := .active ex [] }
  | _ => w

/-- The span produced by the scoped-span portion of
`exercise_tracer_api` in `tests/runtime/test_trace.py`. -/
def foobarSpan : SpanData :=
  { name := "foobar"
    attrs := [("foo", .str "bar"), ("baz", .str "bat"), ("biz", .int 123)]
    events := [("something", [("key", .seq ["val"])])]
    links := [.valid 2] }

/-! ## Concrete fixtures used by the witnesses -/

/-- A concrete filesystem with a single readable PEM file. -/
def testFs : FileSystem := fun p => if p = "ca.pem" then some "CA-PEM" else none

/-- A configuration with tracing switched off. -/
def disabledCfg : RawTraceConfig := { enabled := some false }

/-- A configuration with an unknown protocol enum value. -/
def badProtoCfg : RawTraceConfig := { enabled := some true, protocol := some "bogus" }

/-- An enabled configuration whose TLS settings carry a client
certificate without its key. -/
def incompleteTlsCfg : RawTraceConfig :=
  { enabled := some true, protocol := some "grpc",
    tls := some { client_cert := some (.inline "CC") } }

/-- An enabled grpc configuration pointing at a concrete collector. -/
def grpcTestCfg : RawTraceConfig :=
  { enabled := some true, protocol := some "grpc",
    endpoint := some "localhost:9411", flush_on_exit := some false, tls := none }

/-! ## NLP task declarations (`caikit/interfaces/nlp/tasks.py`) -/

namespace Nlp

/-- The data-model result types referenced by the task declarations in
`caikit/interfaces/nlp/tasks.py`. -/
inductive DataModelType where
  | GeneratedTextResult
  | GeneratedTextStreamResult
  | ClassificationResult
  | ClassifiedGeneratedTextResult
  | ClassifiedGeneratedTextStreamResult
  | TokenClassificationResult
  | TokenClassificationStreamResult
  | TokenizationResult
  | TokenizationStreamResult
deriving DecidableEq, Repr

/-- A Python type expression as it appears in a `@task(...)` decorator. -/
inductive TypeExpr where
  | str
  | dataModel (t : DataModelType)
  | iterable (t : TypeExpr)
deriving DecidableEq, Repr

/-- One `@task(...)` decoration: the keyword arguments of the decorator
as written in `caikit/interfaces/nlp/tasks.py`. -/
structure TaskDecl where
  unary_parameters : List (String × TypeExpr) := []
  required_parameters : List (String × TypeExpr) := []
  streaming_parameters : List (String × TypeExpr) := []
  unary_output_type : Option TypeExpr := none
  output_type : Option TypeExpr := none
  streaming_output_type : Option TypeExpr := none
deriving DecidableEq, Repr

/-- `TextGenerationTask` declaration. -/
def TextGenerationTask : TaskDecl :=
  { unary_parameters := [("text", .str)]
    unary_output_type := some (.dataModel .GeneratedTextResult)
    streaming_output_type := some (.iterable (.dataModel .GeneratedTextStreamResult)) }

/-- `TextClassificationTask` declaration. -/
def TextClassificationTask : TaskDecl :=
  { required_parameters := [("text", .str)]
    output_type := some (.dataModel .ClassificationResult) }

/-- `TokenClassificationTask` declaration. -/
def TokenClassificationTask : TaskDecl :=
  { unary_parameters := [("text", .str)]
    streaming_parameters := [("text_stream", .iterable .str)]
    unary_output_type := some (.dataModel .TokenClassificationResult)
    streaming_output_type := some (.iterable (.dataModel .TokenClassificationStreamResult)) }

/-- `TokenizationTask` declaration. -/
def TokenizationTask : TaskDecl :=
  { unary_parameters := [("text", .str)]
    streaming_parameters := [("text_stream", .iterable .str)]
    unary_output_type := some (.dataModel .TokenizationResult)
    streaming_output_type := some (.iterable (.dataModel .TokenizationStreamResult)) }

/-- `ClassificationWithTextGenerationTask` declaration. -/
def ClassificationWithTextGenerationTask : TaskDecl :=
  { unary_parameters := [("text", .str)]
    unary_output_type := some (.dataModel .ClassifiedGeneratedTextResult)
    streaming_output_type := some (.iterable (.dataModel .ClassifiedGeneratedTextStreamResult)) }

/-- The unary/required input parameters of a task declaration: a task
uses either `unary_parameters` or `required_parameters` for its
non-streaming inputs. -/
def TaskDecl.inputParams (t : TaskDecl) : List (String × TypeExpr) :=
  t.unary_parameters ++ t.required_parameters

end Nlp

/-! ## General lemmas about the embedding -/

/-- The no-op tracer discards every operation: the execution state is
untouched. -/
theorem runOps_noOp (ops : List TraceOp) (st : ExecState) :
    runOps .noOp ops st = st := by
  induction ops generalizing st <;> simp_all [runOps, runOp]

/-- The resolver's `enabled` field is the raw `enabled` with a `false`
default. -/
theorem resolveSettings_enabled (cfg : RawTraceConfig) (s : TraceSettings)
    (h : resolveSettings cfg = .ok s) : s.enabled = cfg.enabled.getD false := by
  unfold resolveSettings at h
  cases hp : parseProtocol (cfg.protocol.getD "grpc") with
  | none => simp [hp] at h
  | some proto =>
    simp [hp] at h
    rw [← h]

/-- A failing `configure()` call leaves the world — in particular the
provider singleton — untouched. -/
theorem configure_error_world (fs : FileSystem) (cfg : RawTraceConfig)
    (w w' : TraceWorld) (e : TraceError)
    (h : configure fs cfg w = (.error e, w')) : w' = w := by
  unfold configure at h
  cases hs : resolveSettings cfg with
  | error e2 => simp [hs] at h; exact h.2.symm
  | ok s =>
    simp [hs] at h
    by_cases hen : s.enabled = false
    · simp [hen] at h
    · simp [hen] at h
      cases htls : resolveTls fs s.tls with
      | error e2 => simp [htls] at h; exact h.2.symm
      | ok r =>
        simp [htls, buildExporter] at h
        by_cases hv : validEndpoint s.protocol s.endpoint = true
        · simp [hv] at h
        · simp [hv] at h; exact h.2.symm

/-- `configure()` with resolved `enabled=false` installs the no-op
provider and changes nothing else. -/
theorem configure_disabled_eq (fs : FileSystem) (cfg : RawTraceConfig)
    (w : TraceWorld) (s : TraceSettings)
    (hs : resolveSettings cfg = .ok s) (hen : s.enabled = false) :
    configure fs cfg w = (.ok (), { w with provider := .noOp }) := by
  unfold configure
  rw [hs]
  simp [hen]

/-- `configure()` with resolved `enabled=true`, resolvable TLS material
and a valid endpoint installs a fresh active provider and imports the
backend. -/
theorem configure_enabled_eq (fs : FileSystem) (cfg : RawTraceConfig)
    (w : TraceWorld) (s : TraceSettings) (r : ResolvedTls)
    (hs : resolveSettings cfg = .ok s) (hen : s.enabled = true)
    (htls : resolveTls fs s.tls = .ok r)
    (hv : validEndpoint s.protocol s.endpoint = true) :
    configure fs cfg w =
      (.ok (), { w with backendImported := true,
                        provider := .active ⟨s.protocol, s.endpoint, credTier r⟩ [] }) := by
  unfold configure buildExporter
  rw [hs]
  simp [hen, htls, hv]

/-- Conversely, a successful enabled `configure()` call can only have
resolved its TLS material, validated its endpoint and installed a fresh
active provider. -/
theorem configure_enabled_shape (fs : FileSystem) (cfg : RawTraceConfig)
    (w w' : TraceWorld) (s : TraceSettings)
    (hs : resolveSettings cfg = .ok s) (hen : s.enabled = true)
    (hok : configure fs cfg w = (.ok (), w')) :
    ∃ r, resolveTls fs s.tls = .ok r ∧ validEndpoint s.protocol s.endpoint = true ∧
      w' = { w with backendImported := true,
                    provider := .active ⟨s.protocol, s.endpoint, credTier r⟩ [] } := by
  unfold configure at hok
  rw [hs] at hok
  simp [hen] at hok
  cases htls : resolveTls fs s.tls with
  | error e2 => simp [htls] at hok
  | ok r =>
    simp [htls, buildExporter] at hok
    by_cases hv : validEndpoint s.protocol s.endpoint = true
    · simp [hv] at hok
      exact ⟨r, rfl, hv, hok.symm⟩
    · simp [hv] at hok

/-- Running the test's exercise sequence against a real tracer over a
fresh active provider buffers exactly the ended scoped span. -/
theorem runOps_real_exercise (ex : Exporter) (w : TraceWorld)
    (hw : w.provider = .active ex []) :
    runOps (.real ex) exerciseOps ⟨w, []⟩ =
      ⟨{ w with provider := .active ex [foobarSpan] }, []⟩ := by
  simp [runOps, exerciseOps, runOp, modifyCurrent, endCurrent, hw, foobarSpan, List.foldl]

/-- Exercising the tracer of an active provider and force-flushing posts
an export request that carries the created span to the provider's
endpoint, whenever the collector there is reachable. -/
theorem exercise_flush_exports (ex : Exporter) (w : TraceWorld) (name : String)
    (reachable : String → Bool) (hw : w.provider = .active ex [])
    (hreach : reachable ex.endpoint = true) :
    ∃ req ∈ (forceFlush reachable
        (runOps (get_tracer w name) exerciseOps ⟨w, []⟩).world).collectorRequests,
      req.endpoint = ex.endpoint ∧ ∃ sp ∈ req.spans, sp.name = "foobar" := by
  have ht : get_tracer w name = .real ex := by simp [get_tracer, hw]
  rw [ht, runOps_real_exercise ex w hw]
  refine ⟨⟨ex.endpoint, [foobarSpan]⟩, ?_, rfl, foobarSpan, by simp, rfl⟩
  simp [forceFlush, hreach, foobarSpan]

/-! ## Additional lemmas -/

/-- An incomplete client pair is rejected by the TLS material loader. -/
theorem resolveTls_incomplete (fs : FileSystem) (t : TlsSettings)
    (hne : t.client_cert.isSome ≠ t.client_key.isSome) :
    resolveTls fs (some t) = .error (.configError "incomplete mTLS pair") := by
  simp [resolveTls, hne]

/-- Resolving an optional PEM field preserves presence. -/
theorem resolvePemOpt_isSome (fs : FileSystem) (o : Option PemMaterial)
    (x : Option String) (h : resolvePemOpt fs o = .ok x) : x.isSome = o.isSome := by
  cases o with
  | none =>
    simp [resolvePemOpt] at h
    simp [← h]
  | some m =>
    simp [resolvePemOpt] at h
    cases hm : resolvePem fs m with
    | error e => rw [hm] at h; simp [Except.map] at h
    | ok c => rw [hm] at h; simp [Except.map] at h; simp [← h]

/-- Successful TLS resolution preserves which fields are present. -/
theorem resolveTls_isSome (fs : FileSystem) (t : TlsSettings) (r : ResolvedTls)
    (h : resolveTls fs (some t) = .ok r) :
    r.ca.isSome = t.ca.isSome ∧ r.client_cert.isSome = t.client_cert.isSome ∧
      r.client_key.isSome = t.client_key.isSome := by
  simp only [resolveTls] at h
  split at h
  · simp at h
  · cases hca : resolvePemOpt fs t.ca with
    | error e => rw [hca] at h; simp at h
    | ok ca =>
      rw [hca] at h
      cases hcc : resolvePemOpt fs t.client_cert with
      | error e => rw [hcc] at h; simp at h
      | ok cert =>
        rw [hcc] at h
        cases hck : resolvePemOpt fs t.client_key with
        | error e => rw [hck] at h; simp at h
        | ok key =>
          rw [hck] at h
          simp at h
          rw [← h]
          exact ⟨resolvePemOpt_isSome fs t.ca ca hca,
                 resolvePemOpt_isSome fs t.client_cert cert hcc,
                 resolvePemOpt_isSome fs t.client_key key hck⟩

/-- After any `configure()` call on a disabled configuration, the tracer
handed out is the no-op tracer. -/
theorem configure_disabled_get_tracer (fs : FileSystem) (cfg : RawTraceConfig)
    (hen : cfg.enabled.getD false = false) (name : String) :
    get_tracer (configure fs cfg freshWorld).2 name = .noOp := by
  cases hs : resolveSettings cfg with
  | error e =>
    have h2 : (configure fs cfg freshWorld).2 = freshWorld := by
      unfold configure
      rw [hs]
    rw [h2]
    rfl
  | ok s =>
    have he : s.enabled = false := by
      rw [resolveSettings_enabled cfg s hs]
      exact hen
    rw [configure_disabled_eq fs cfg freshWorld s hs he]
    rfl

/-! ## The claims -/

/-- Claim C1: for every configuration with `enabled=false`, after
`configure()` every operation of the tracer returned by `get_tracer`
completes (the run function is total) without the tracing backend ever
being imported or activated. -/
theorem trace_disabled_no_backend (fs : FileSystem) (cfg : RawTraceConfig)
    (hen : cfg.enabled.getD false = false) (name : String)
    (ops : List TraceOp) (st0 : List SpanData) :
    (configure fs cfg freshWorld).2.backendImported = false ∧
    get_tracer (configure fs cfg freshWorld).2 name = .noOp ∧
    runOps (get_tracer (configure fs cfg freshWorld).2 name) ops
      ⟨(configure fs cfg freshWorld).2, st0⟩ =
      ⟨(configure fs cfg freshWorld).2, st0⟩ := by
  cases hs : resolveSettings cfg with
  | error e =>
    have h2 : (configure fs cfg freshWorld).2 = freshWorld := by
      unfold configure
      rw [hs]
    rw [h2]
    exact ⟨rfl, rfl, runOps_noOp _ _⟩
  | ok s =>
    have he : s.enabled = false := by
      rw [resolveSettings_enabled cfg s hs]
      exact hen
    rw [configure_disabled_eq fs cfg freshWorld s hs he]
    exact ⟨rfl, rfl, runOps_noOp _ _⟩


/-- Witness for C1 at a concrete disabled configuration. -/
theorem trace_disabled_no_backend_witness :
    (configure testFs disabledCfg freshWorld).2.backendImported = false ∧
    get_tracer (configure testFs disabledCfg freshWorld).2 "test/tracer" = .noOp ∧
    runOps (get_tracer (configure testFs disabledCfg freshWorld).2 "test/tracer")
      exerciseOps ⟨(configure testFs disabledCfg freshWorld).2, []⟩ =
      ⟨(configure testFs disabledCfg freshWorld).2, []⟩ :=
  trace_disabled_no_backend testFs disabledCfg rfl "test/tracer" exerciseOps []

/-- Claim C2: `get_tracer(name)` before any `configure()` call is total,
returns the no-op tracer, and behaves identically on every operation
sequence to the tracer returned after `configure()` with
`enabled=false`. -/
theorem get_tracer_unconfigured_noop (fs : FileSystem) (cfg : RawTraceConfig)
    (hen : cfg.enabled.getD false = false) (name : String) :
    get_tracer freshWorld name = .noOp ∧
    get_tracer (configure fs cfg freshWorld).2 name = .noOp ∧
    ∀ ops st, runOps (get_tracer freshWorld name) ops st =
      runOps (get_tracer (configure fs cfg freshWorld).2 name) ops st := by
  have h1 := configure_disabled_get_tracer fs cfg hen name
  refine ⟨rfl, h1, fun ops st => ?_⟩
  rw [h1]
  rfl

/-- Witness for C2 at a concrete disabled configuration. -/
theorem get_tracer_unconfigured_noop_witness :
    get_tracer freshWorld "test/tracer" = .noOp ∧
    get_tracer (configure testFs disabledCfg freshWorld).2 "test/tracer" = .noOp ∧
    ∀ ops st, runOps (get_tracer freshWorld "test/tracer") ops st =
      runOps (get_tracer (configure testFs disabledCfg freshWorld).2 "test/tracer") ops st :=
  get_tracer_unconfigured_noop testFs disabledCfg rfl "test/tracer"

/-- Claim C3: for every enabled configuration (grpc or http) whose
endpoint names a reachable collector, `configure()` followed by span
creation and a forced flush results in the collector receiving at least
one export request containing the created span. -/
theorem trace_configured_exports (fs : FileSystem) (cfg : RawTraceConfig)
    (reachable : String → Bool) (s : TraceSettings) (r : ResolvedTls)
    (name : String)
    (hs : resolveSettings cfg = .ok s) (hen : s.enabled = true)
    (htls : resolveTls fs s.tls = .ok r)
    (hv : validEndpoint s.protocol s.endpoint = true)
    (hreach : reachable s.endpoint = true) :
    ∃ w', configure fs cfg freshWorld = (.ok (), w') ∧
      ∃ req ∈ (forceFlush reachable
          (runOps (get_tracer w' name) exerciseOps ⟨w', []⟩).world).collectorRequests,
        req.endpoint = s.endpoint ∧ ∃ sp ∈ req.spans, sp.name = "foobar" := by
  refine ⟨_, configure_enabled_eq fs cfg freshWorld s r hs hen htls hv, ?_⟩
  exact exercise_flush_exports ⟨s.protocol, s.endpoint, credTier r⟩ _ name reachable rfl hreach

/-- Witness for C3 at a concrete enabled grpc configuration with an
always-reachable collector. -/
theorem trace_configured_exports_witness :
    ∃ w', configure testFs grpcTestCfg freshWorld = (.ok (), w') ∧
      ∃ req ∈ (forceFlush (fun _ => true)
          (runOps (get_tracer w' "test/tracer") exerciseOps ⟨w', []⟩).world).collectorRequests,
        req.endpoint = "localhost:9411" ∧ ∃ sp ∈ req.spans, sp.name = "foobar" :=
  trace_configured_exports testFs grpcTestCfg (fun _ => true)
    ⟨true, .grpc, "localhost:9411", false, none⟩ {} "test/tracer"
    rfl rfl rfl (by decide) rfl

/-- Claim C4: whenever `configure()` fails with `ConfigError` or
`IOError`, the provider singleton after the failed call equals the state
before the call; on a first-call failure the tracer handed out is still
the no-op tracer, and the provider is never left half-configured in a new
`active` state. -/
theorem configure_failure_preserves_state (fs : FileSystem) (cfg : RawTraceConfig)
    (w w' : TraceWorld) (e : TraceError)
    (hfail : configure fs cfg w = (.error e, w')) :
    w'.provider = w.provider ∧
    (w.provider = .unconfigured → ∀ name, get_tracer w' name = .noOp) ∧
    ∀ ex buf, w'.provider = .active ex buf → w.provider = .active ex buf := by
  have hw : w' = w := configure_error_world fs cfg w w' e hfail
  subst hw
  refine ⟨rfl, ?_, fun ex buf h => h⟩
  intro hu name
  simp [get_tracer, hu]

/-- Witness for C4: a bad protocol enum fails from the fresh world and
leaves the provider unconfigured. -/
theorem configure_failure_preserves_state_witness :
    freshWorld.provider = freshWorld.provider ∧
    (freshWorld.provider = .unconfigured → ∀ name, get_tracer freshWorld name = .noOp) ∧
    ∀ ex buf, freshWorld.provider = .active ex buf → freshWorld.provider = .active ex buf :=
  configure_failure_preserves_state testFs badProtoCfg freshWorld freshWorld
    (.configError "unknown protocol: bogus") rfl

/-- Claim C7: resolving a path-based `PemMaterial` naming a readable file
yields bytes identical to resolving the inline material holding the
file's contents; inline material resolves to its own bytes; an unreadable
path fails with `IOError`. -/
theorem pem_roundtrip (fs : FileSystem) (p s : String) :
    (∀ c, fs p = some c → resolvePem fs (.path p) = resolvePem fs (.inline c)) ∧
    resolvePem fs (.inline s) = .ok s ∧
    (fs p = none → resolvePem fs (.path p) = .error (.ioError p)) := by
  refine ⟨fun c hc => ?_, rfl, fun hn => ?_⟩
  · simp [resolvePem, hc]
  · simp [resolvePem, hn]

/-- Witness for C7 on a concrete filesystem with one readable file. -/
theorem pem_roundtrip_witness :
    resolvePem testFs (.path "ca.pem") = resolvePem testFs (.inline "CA-PEM") ∧
    resolvePem testFs (.inline "CA-PEM") = .ok "CA-PEM" ∧
    resolvePem testFs (.path "missing.pem") = .error (.ioError "missing.pem") :=
  ⟨(pem_roundtrip testFs "ca.pem" "CA-PEM").1 "CA-PEM" rfl,
   (pem_roundtrip testFs "ca.pem" "CA-PEM").2.1,
   (pem_roundtrip testFs "missing.pem" "CA-PEM").2.2 rfl⟩

/-- Claim C8: the configuration resolver — a pure function of the raw
mapping alone — defaults a missing `enabled` field to `false`: any
settings it produces have `enabled=false`, and it behaves exactly as if
`enabled=false` had been written. -/
theorem missing_enabled_defaults_false (cfg : RawTraceConfig)
    (h : cfg.enabled = none) :
    (∀ s, resolveSettings cfg = .ok s → s.enabled = false) ∧
    resolveSettings cfg = resolveSettings { cfg with enabled := some false } := by
  constructor
  · intro s hs
    rw [resolveSettings_enabled cfg s hs, h]
    rfl
  · simp [resolveSettings, h]

/-- Witness for C8 at the empty configuration mapping. -/
theorem missing_enabled_defaults_false_witness :
    (∀ s, resolveSettings ({} : RawTraceConfig) = .ok s → s.enabled = false) ∧
    resolveSettings ({} : RawTraceConfig) =
      resolveSettings { ({} : RawTraceConfig) with enabled := some false } :=
  missing_enabled_defaults_false {} rfl

/-- Claim C9: every operation of the no-op Tracer/Span capability set —
scoped enter/exit even when misused, `add_link` with an invalid or
missing context, attribute values of mixed types — is silently discarded:
running any operation sequence is total and leaves the execution state
untouched. -/
theorem noop_tracer_silently_discards (ops : List TraceOp) (st : ExecState) :
    runOps .noOp ops st = st :=
  runOps_noOp ops st

/-- Claim C10: every NLP task declaration has exactly one unary/required
input parameter, named `text`, of type `str`; the two tasks accepting
streaming input name it `text_stream` of type `Iterable[str]`, and the
other three declare no streaming parameters. -/
theorem nlp_tasks_text_input :
    Nlp.TextGenerationTask.inputParams = [("text", .str)] ∧
    Nlp.TextClassificationTask.inputParams = [("text", .str)] ∧
    Nlp.TokenClassificationTask.inputParams = [("text", .str)] ∧
    Nlp.TokenizationTask.inputParams = [("text", .str)] ∧
    Nlp.ClassificationWithTextGenerationTask.inputParams = [("text", .str)] ∧
    Nlp.TokenClassificationTask.streaming_parameters = [("text_stream", .iterable .str)] ∧
    Nlp.TokenizationTask.streaming_parameters = [("text_stream", .iterable .str)] ∧
    Nlp.TextGenerationTask.streaming_parameters = [] ∧
    Nlp.TextClassificationTask.streaming_parameters = [] ∧
    Nlp.ClassificationWithTextGenerationTask.streaming_parameters = [] :=
  ⟨rfl, rfl, rfl, rfl, rfl, rfl, rfl, rfl, rfl, rfl⟩

/-- Claim C5: `client_cert` and `client_key` are both-or-neither —
resolving TLS settings with exactly one of them present fails with
`ConfigError` (and so does `configure()` on the enabled path), while `ca`
alone yields the server-auth-only credential tier and both client fields
yield the mutual-TLS tier. -/
theorem tls_client_pair_both_or_neither (fs : FileSystem) (t : TlsSettings) :
    (t.client_cert.isSome ≠ t.client_key.isSome →
      resolveTls fs (some t) = .error (.configError "incomplete mTLS pair")) ∧
    (∀ cfg s w, resolveSettings cfg = .ok s → s.enabled = true → s.tls = some t →
      t.client_cert.isSome ≠ t.client_key.isSome →
      configure fs cfg w = (.error (.configError "incomplete mTLS pair"), w)) ∧
    (∀ r, t.ca.isSome = true → t.client_cert = none → t.client_key = none →
      resolveTls fs (some t) = .ok r → credTier r = .serverAuth) ∧
    (∀ r, t.client_cert.isSome = true → t.client_key.isSome = true →
      resolveTls fs (some t) = .ok r → credTier r = .mutualTls) := by
  refine ⟨resolveTls_incomplete fs t, ?_, ?_, ?_⟩
  · intro cfg s w hs hen hst hne
    unfold configure
    rw [hs]
    simp only [hen]
    rw [hst, resolveTls_incomplete fs t hne]
    simp
  · intro r hca hcc hck hok
    obtain ⟨h1, h2, h3⟩ := resolveTls_isSome fs t r hok
    have hc : r.client_cert.isSome = false := by rw [h2, hcc]; rfl
    have hac : r.ca.isSome = true := by rw [h1, hca]
    simp [credTier, hc, hac]
  · intro r hcc hck hok
    obtain ⟨h1, h2, h3⟩ := resolveTls_isSome fs t r hok
    have hc : r.client_cert.isSome = true := by rw [h2, hcc]
    have hk : r.client_key.isSome = true := by rw [h3, hck]
    simp [credTier, hc, hk]

/-- Witness for C5: an incomplete pair is rejected (standalone and from
`configure()`), a lone CA gives server-auth TLS, a full client pair gives
mutual TLS. -/
theorem tls_client_pair_both_or_neither_witness :
    resolveTls testFs (some { client_cert := some (.inline "CC") }) =
      .error (.configError "incomplete mTLS pair") ∧
    configure testFs incompleteTlsCfg freshWorld =
      (.error (.configError "incomplete mTLS pair"), freshWorld) ∧
    credTier { ca := some "CA" } = .serverAuth ∧
    credTier { client_cert := some "CC", client_key := some "KK" } = .mutualTls :=
  ⟨(tls_client_pair_both_or_neither testFs { client_cert := some (.inline "CC") }).1
      (by decide),
   (tls_client_pair_both_or_neither testFs { client_cert := some (.inline "CC") }).2.1
      incompleteTlsCfg
      ⟨true, .grpc, "localhost:4317", true, some { client_cert := some (.inline "CC") }⟩
      freshWorld rfl rfl rfl (by decide),
   (tls_client_pair_both_or_neither testFs { ca := some (.inline "CA") }).2.2.1
      { ca := some "CA" } rfl rfl rfl rfl,
   (tls_client_pair_both_or_neither testFs
        { client_cert := some (.inline "CC"), client_key := some (.inline "KK") }).2.2.2
      { client_cert := some "CC", client_key := some "KK" } rfl rfl rfl⟩

/-- Claim C6: `configure()` is overwrite-idempotent — its outcome never
depends on the prior singleton state (last call wins), a repeated call
with the same settings succeeds again, and after configuring twice with
the same enabled settings the provider still exports the created span on
a forced flush. -/
theorem configure_overwrites (fs : FileSystem) (cfg : RawTraceConfig) :
    (∀ w₁ w₂, (configure fs cfg w₁).1 = (configure fs cfg w₂).1) ∧
    (∀ w₁ w₂ u₁ u₂, configure fs cfg w₁ = (.ok (), u₁) →
      configure fs cfg w₂ = (.ok (), u₂) → u₁.provider = u₂.provider) ∧
    (∀ s w₁ name reachable, resolveSettings cfg = .ok s → s.enabled = true →
      configure fs cfg freshWorld = (.ok (), w₁) → reachable s.endpoint = true →
      (configure fs cfg w₁).1 = .ok () ∧
      ∃ req ∈ (forceFlush reachable
          (runOps (get_tracer (configure fs cfg w₁).2 name) exerciseOps
            ⟨(configure fs cfg w₁).2, []⟩).world).collectorRequests,
        req.endpoint = s.endpoint ∧ ∃ sp ∈ req.spans, sp.name = "foobar") := by
  refine ⟨?_, ?_, ?_⟩
  · intro w₁ w₂
    unfold configure buildExporter
    cases resolveSettings cfg with
    | error e => rfl
    | ok s =>
      by_cases hen : s.enabled = false
      · simp [hen]
      · simp only [hen, if_false]
        cases resolveTls fs s.tls with
        | error e => rfl
        | ok r =>
          by_cases hv : validEndpoint s.protocol s.endpoint = true
          · simp [hv]
          · simp [hv]
  · intro w₁ w₂ u₁ u₂ h1 h2
    cases hs : resolveSettings cfg with
    | error e =>
      unfold configure at h1
      rw [hs] at h1
      simp at h1
    | ok s =>
      cases hb : s.enabled with
      | false =>
        rw [configure_disabled_eq fs cfg w₁ s hs hb] at h1
        rw [configure_disabled_eq fs cfg w₂ s hs hb] at h2
        have e1 : u₁ = { w₁ with provider := .noOp } := by
          simpa using congrArg Prod.snd h1.symm
        have e2 : u₂ = { w₂ with provider := .noOp } := by
          simpa using congrArg Prod.snd h2.symm
        rw [e1, e2]
      | true =>
        obtain ⟨r₁, htls₁, hv₁, hw₁⟩ := configure_enabled_shape fs cfg w₁ u₁ s hs hb h1
        obtain ⟨r₂, htls₂, hv₂, hw₂⟩ := configure_enabled_shape fs cfg w₂ u₂ s hs hb h2
        have hr : r₁ = r₂ := by
          have := htls₁.symm.trans htls₂
          simpa using this
        rw [hw₁, hw₂, hr]
  · intro s w₁ name reachable hs hen h1 hreach
    obtain ⟨r, htls, hv, hw₁⟩ := configure_enabled_shape fs cfg freshWorld w₁ s hs hen h1
    have h2 := configure_enabled_eq fs cfg w₁ s r hs hen htls hv
    rw [h2]
    exact ⟨rfl,
      exercise_flush_exports ⟨s.protocol, s.endpoint, credTier r⟩ _ name reachable rfl hreach⟩

/-- Witness for C6: configuring the concrete grpc configuration twice
from the fresh world succeeds and still exports the created span. -/
theorem configure_overwrites_witness :
    (configure testFs grpcTestCfg
        ((configure testFs grpcTestCfg freshWorld).2)).1 = .ok () ∧
    ∃ req ∈ (forceFlush (fun _ => true)
        (runOps
          (get_tracer (configure testFs grpcTestCfg
            ((configure testFs grpcTestCfg freshWorld).2)).2 "test/tracer")
          exerciseOps
          ⟨(configure testFs grpcTestCfg
            ((configure testFs grpcTestCfg freshWorld).2)).2, []⟩).world).collectorRequests,
      req.endpoint = "localhost:9411" ∧ ∃ sp ∈ req.spans, sp.name = "foobar" :=
  (configure_overwrites testFs grpcTestCfg).2.2
    ⟨true, .grpc, "localhost:9411", false, none⟩
    ((configure testFs grpcTestCfg freshWorld).2) "test/tracer" (fun _ => true)
    rfl rfl rfl rfl

end Caikit
